import Mathlib

/-!
Shallow embedding of webgl-operate's resolution/binding management (src/source/canvas.ts)
and label dirty-flag propagation (src/source/label.ts).

Modelling conventions:
- JS numbers appearing in the scale/size arithmetic are modelled as exact rationals;
  native pixel sizes are integers.
- JS object identity (renderer references, `===`) is modelled by natural-number ids into
  an explicit heap of renderer states.
- The frame controller (core/controller.ts, outside the analyzed sources) is modelled per
  the spec as a boolean gate `blocked`; block()/unblock() set and clear it.
- Observable emissions (ReplaySubject.next) are not modelled; log_if diagnostics are
  modelled as a list of log events, thrown faults as a list of fault events.
-/

/-- JavaScript's Math.round (used by gl-matrix vec2.round): round half toward
positive infinity, i.e. floor(x + 1/2). -/
def jsRound (q : ℚ) : ℤ := ⌊q + 1 / 2⌋

/-- Modelled from the spec: clamp2 of core/gl-matrix-extensions (not among the analyzed
sources) clamps each component; one component is min(max(x, lo), hi). -/
def clampQ (x lo hi : ℚ) : ℚ := min (max x lo) hi

/-- Frame precision strings of canvas.ts (FramePrecisionString). -/
inductive Precision
  | float
  | half
  | byte
  | auto
deriving DecidableEq

/-- Modelled from the spec: the bound pipeline (AbstractRenderer of core/renderer.ts is not
among the analyzed sources). It exposes initialize/uninitialize and property setters for
frame size, clear color and precision; per the spec the precision setter performs
capability negotiation, so assigning precision p stores `negotiate p`, which a subsequent
read reports back. `initCount` counts initialize invocations. -/
structure Renderer where
  initCount : ℕ
  initialized : Bool
  framePrecision : Precision
  frameSize : ℤ × ℤ
  clearColor : ℚ × ℚ × ℚ × ℚ
  debugTexture : ℤ
  negotiate : Precision → Precision

/-- Pointwise update of the renderer heap at one id. -/
def updateR (f : ℕ → Renderer) (rid : ℕ) (g : Renderer → Renderer) : ℕ → Renderer :=
  fun n => if n = rid then g (f n) else f n

/-- State of a Canvas (canvas.ts) together with the heap of renderer objects it may
reference. `size` is `_size` (native pixels, integers), `blocked` is the controller's
gate, `controllable` is `_controller.controllable`, `renderer` is `_renderer`. -/
structure Canvas where
  size : ℤ × ℤ
  frameScale : ℚ × ℚ
  frameSize : ℤ × ℤ
  favorSizeOverScale : Bool
  framePrecision : Precision
  clearColor : ℚ × ℚ × ℚ × ℚ
  blocked : Bool
  controllable : Option ℕ
  renderer : Option ℕ
  renderers : ℕ → Renderer

/-- Diagnostics emitted via log_if in the frameScale/frameSize setters. -/
inductive LogEvent
  | scaleClampX
  | scaleClampY
  | scaleAdjusted
  | sizeClampX
  | sizeClampY
  | sizeAdjusted
deriving DecidableEq

/-- Faults a setter could signal (the taxonomy's PreconditionViolation). -/
inductive Fault
  | invalidArgument
deriving DecidableEq

/-- Result of running a canvas property setter: the new state, the diagnostics logged,
and the faults signalled. -/
structure SetterOut where
  state : Canvas
  logs : List LogEvent
  faults : List Fault

/-- The frameScale setter (canvas.ts lines 415-445): log_if out-of-range, clamp the scale
to [0,1], size := round(max([1,1], _size * scale)), scale := size / _size recomputed from
the rounded size, store both, favorSizeOverScale := false, forward the frame size to the
bound renderer. It never throws. -/
def Canvas.setFrameScale (w : Canvas) (s : ℚ × ℚ) : SetterOut :=
  let scale : ℚ × ℚ := (clampQ s.1 0 1, clampQ s.2 0 1)
  let size1 : ℚ × ℚ := (max 1 ((w.size.1 : ℚ) * scale.1), max 1 ((w.size.2 : ℚ) * scale.2))
  let size : ℤ × ℤ := (jsRound size1.1, jsRound size1.2)
  let scale2 : ℚ × ℚ := ((size.1 : ℚ) / (w.size.1 : ℚ), (size.2 : ℚ) / (w.size.2 : ℚ))
  { state :=
      { w with
        frameScale := scale2
        frameSize := size
        favorSizeOverScale := false
        renderers :=
          match w.renderer with
          | none => w.renderers
          | some rid => updateR w.renderers rid (fun r => { r with frameSize := size }) }
    logs :=
      (if s.1 < 0 ∨ 1 < s.1 then [LogEvent.scaleClampX] else []) ++
      (if s.2 < 0 ∨ 1 < s.2 then [LogEvent.scaleClampY] else []) ++
      (if scale2 ≠ s then [LogEvent.scaleAdjusted] else [])
    faults := [] }

/-- The frameSize setter (canvas.ts lines 472-499): log_if out-of-range, clamp each axis
to [1, _size axis], round, scale := size / _size, store both,
favorSizeOverScale := (size different from _size), forward the frame size to the bound
renderer. It never throws. -/
def Canvas.setFrameSize (w : Canvas) (sz : ℚ × ℚ) : SetterOut :=
  let size0 : ℚ × ℚ := (clampQ sz.1 1 (w.size.1 : ℚ), clampQ sz.2 1 (w.size.2 : ℚ))
  let size : ℤ × ℤ := (jsRound size0.1, jsRound size0.2)
  let scale : ℚ × ℚ := ((size.1 : ℚ) / (w.size.1 : ℚ), (size.2 : ℚ) / (w.size.2 : ℚ))
  { state :=
      { w with
        frameScale := scale
        frameSize := size
        favorSizeOverScale := decide (size ≠ w.size)
        renderers :=
          match w.renderer with
          | none => w.renderers
          | some rid => updateR w.renderers rid (fun r => { r with frameSize := size }) }
    logs :=
      (if sz.1 < 1 ∨ (w.size.1 : ℚ) < sz.1 then [LogEvent.sizeClampX] else []) ++
      (if sz.2 < 1 ∨ (w.size.2 : ℚ) < sz.2 then [LogEvent.sizeClampY] else []) ++
      (if ((size.1 : ℚ), (size.2 : ℚ)) ≠ sz then [LogEvent.sizeAdjusted] else [])
    faults := [] }

/-- Controller-level events observable during onResize. -/
inductive CtrlEvent
  | block
  | applySize
  | applyScale
  | unblock
deriving DecidableEq

/-- onResize (canvas.ts lines 239-262): retrieve the new native size; if a renderer is
bound, block the controller; re-apply the previous frame size when favorSizeOverScale,
otherwise the previous frame scale; if a renderer is bound, unblock. Returns the new
state and the trace of controller events. -/
def Canvas.onResize (w : Canvas) (newSize : ℤ × ℤ) : Canvas × List CtrlEvent :=
  let w1 : Canvas := { w with size := newSize }
  let bound : Bool := w1.renderer.isSome
  let w2 : Canvas := if bound then { w1 with blocked := true } else w1
  let step : Canvas × CtrlEvent :=
    if w2.favorSizeOverScale then
      ((Canvas.setFrameSize w2 ((w2.frameSize.1 : ℚ), (w2.frameSize.2 : ℚ))).state,
        CtrlEvent.applySize)
    else
      ((Canvas.setFrameScale w2 w2.frameScale).state, CtrlEvent.applyScale)
  let w3 : Canvas := if bound then { step.1 with blocked := false } else step.1
  (w3,
    (if bound then [CtrlEvent.block] else []) ++ [step.2] ++
      (if bound then [CtrlEvent.unblock] else []))

/-- The public resize() (canvas.ts lines 368-370) just invokes onResize. -/
def Canvas.resize (w : Canvas) (newSize : ℤ × ℤ) : Canvas × List CtrlEvent :=
  Canvas.onResize w newSize

/-- unbind (canvas.ts lines 338-350): no-op when nothing is bound; otherwise block the
controller, detach controllable and the renderer reference. The renderer heap is left
untouched (no uninitialize) and the controller is not unblocked. -/
def Canvas.unbind (w : Canvas) : Canvas :=
  match w.renderer with
  | none => w
  | some _ => { w with blocked := true, controllable := none, renderer := none }

/-- bind (canvas.ts lines 302-332): no-op when the argument is the bound renderer;
otherwise unbind (blocking the controller), stop if the argument is undefined, else store
the reference, initialize the renderer, push frame size, clear color, precision (stored
negotiated on the renderer side) and debug texture, attach it as controllable and unblock.
Note the canvas's own framePrecision field is not updated here. -/
def Canvas.bind (w : Canvas) (r : Option ℕ) : Canvas :=
  if w.renderer = r then w
  else
    let w1 : Canvas := Canvas.unbind w
    match r with
    | none => w1
    | some rid =>
      let w2 : Canvas := { w1 with renderer := some rid }
      let rs1 : ℕ → Renderer :=
        updateR w2.renderers rid
          (fun rst => { rst with initCount := rst.initCount + 1, initialized := true })
      let rs2 : ℕ → Renderer :=
        updateR rs1 rid
          (fun rst =>
            { rst with
              frameSize := w2.frameSize
              clearColor := w2.clearColor
              framePrecision := rst.negotiate w2.framePrecision
              debugTexture := -1 })
      { w2 with renderers := rs2, controllable := some rid, blocked := false }

/-- The framePrecision setter (canvas.ts lines 545-553): store the requested precision;
if a renderer is bound, push it (the renderer stores its negotiated value) and read the
renderer's value back as the canonical canvas precision. -/
def Canvas.setFramePrecision (w : Canvas) (p : Precision) : Canvas :=
  let w1 : Canvas := { w with framePrecision := p }
  match w1.renderer with
  | none => w1
  | some rid =>
    let rs : ℕ → Renderer :=
      updateR w1.renderers rid
        (fun rst => { rst with framePrecision := rst.negotiate w1.framePrecision })
    { w1 with renderers := rs, framePrecision := (rs rid).framePrecision }

/-- Dirty-flag categories of a Label (label.ts). -/
inductive LCat
  | color
  | resources
  | text
  | typesetting
  | transformation
deriving DecidableEq

/-- Modelled from the spec: ChangeLookup (core/changelookup.ts is not among the analyzed
sources) is a named set of boolean dirty flags with an aggregate any flag. -/
structure ChangeLookup where
  any : Bool
  color : Bool
  resources : Bool
  text : Bool
  typesetting : Bool
  transformation : Bool
deriving DecidableEq

/-- Modelled from the spec: alter(category) sets both the category flag and any. -/
def ChangeLookup.alter (c : ChangeLookup) (cat : LCat) : ChangeLookup :=
  match cat with
  | LCat.color => { c with any := true, color := true }
  | LCat.resources => { c with any := true, resources := true }
  | LCat.text => { c with any := true, text := true }
  | LCat.typesetting => { c with any := true, typesetting := true }
  | LCat.transformation => { c with any := true, transformation := true }

/-- Modelled from the spec: reset() clears all flags. -/
def ChangeLookup.reset (_c : ChangeLookup) : ChangeLookup :=
  { any := false, color := false, resources := false, text := false,
    typesetting := false, transformation := false }

/-- Modelled from the spec: Color (core/color.ts is not among the analyzed sources) with
rgba components; equals is value equality on components. -/
structure ColorM where
  r : ℚ
  g : ℚ
  b : ℚ
  a : ℚ
deriving DecidableEq

/-- Modelled from the spec: Color.equals performs value equality, not identity. -/
def ColorM.equals (x y : ColorM) : Bool :=
  decide (x.r = y.r ∧ x.g = y.g ∧ x.b = y.b ∧ x.a = y.a)

/-- Modelled from the spec: a shared Text object (core/text.ts is not among the analyzed
sources) owns a character string and its own alteration flag. -/
structure TextM where
  str : String
  altered : Bool
deriving DecidableEq

/-- Modelled from the spec: FontFace (core/fontface.ts is not among the analyzed sources)
provides glyph metrics; `id` models JS object identity, `kerning` and `advance` take
character codes (none models JS NaN from an out-of-range charCodeAt) and return metric
values (none models NaN). -/
structure FontFaceM where
  id : ℕ
  kerning : Option ℕ → Option ℕ → Option ℚ
  advance : Option ℕ → Option ℚ

/-- Horizontal alignment enum of label.ts (Label.Alignment). -/
inductive Label.Alignment
  | left
  | center
  | right
deriving DecidableEq

/-- Line anchor enum of label.ts (Label.LineAnchor). -/
inductive Label.LineAnchor
  | top
  | ascent
  | center
  | baseline
  | descent
  | bottom
deriving DecidableEq

/-- State of a Label (label.ts). `_altered` is the label's own ChangeLookup; `text` is
either a shared Text object or a plain string; `fontFace` is none until one is set. -/
structure Label where
  text : TextM ⊕ String
  wordWrap : Bool
  alignment : Label.Alignment
  lineAnchor : Label.LineAnchor
  lineWidth : ℚ
  fontFace : Option FontFaceM
  color : ColorM
  backgroundColor : ColorM
  _altered : ChangeLookup

/-- Character code of a string at a JS index: none (NaN) when the index is out of range. -/
def strCodeAt (s : String) (i : ℤ) : Option ℕ :=
  if i < 0 then none else (s.data.get? i.toNat).map Char.toNat

/-- charCodeAt of label.ts: delegate to the Text object's string or the plain string. -/
def Label.charCodeAt (l : Label) (i : ℤ) : Option ℕ :=
  match l.text with
  | Sum.inl t => strCodeAt t.str i
  | Sum.inr s => strCodeAt s i

/-- length getter of label.ts: the length of the (referenced) text. -/
def Label.length (l : Label) : ℕ :=
  match l.text with
  | Sum.inl t => t.str.length
  | Sum.inr s => s.length

/-- kerningBefore (label.ts lines 79-84): NaN without touching the font face when
index < 1 or index > length; otherwise consult fontFace.kerning. The Bool records
whether the font face was consulted. -/
def Label.kerningBefore (l : Label) (i : ℤ) : Bool × Option ℚ :=
  if i < 1 ∨ (l.length : ℤ) < i then (false, none)
  else
    (true,
      match l.fontFace with
      | none => none
      | some f => f.kerning (l.charCodeAt (i - 1)) (l.charCodeAt i))

/-- kerningAfter (label.ts lines 86-91): NaN without touching the font face when
index < 0 or index > length - 1; otherwise consult fontFace.kerning. -/
def Label.kerningAfter (l : Label) (i : ℤ) : Bool × Option ℚ :=
  if i < 0 ∨ (l.length : ℤ) - 1 < i then (false, none)
  else
    (true,
      match l.fontFace with
      | none => none
      | some f => f.kerning (l.charCodeAt i) (l.charCodeAt (i + 1)))

/-- advance (label.ts lines 98-103): NaN without touching the font face when index < 0 or
index > length; otherwise consult the glyph's advance. -/
def Label.advance (l : Label) (i : ℤ) : Bool × Option ℚ :=
  if i < 0 ∨ (l.length : ℤ) < i then (false, none)
  else
    (true,
      match l.fontFace with
      | none => none
      | some f => f.advance (l.charCodeAt i))

/-- text setter (label.ts lines 109-112): always marks the text category dirty and stores
the value; there is no equality guard. -/
def Label.setText (l : Label) (t : TextM ⊕ String) : Label :=
  { l with _altered := l._altered.alter LCat.text, text := t }

/-- wordWrap setter (label.ts lines 138-144): early-return on equal value. -/
def Label.setWordWrap (l : Label) (w : Bool) : Label :=
  if l.wordWrap = w then l
  else { l with _altered := l._altered.alter LCat.typesetting, wordWrap := w }

/-- alignment setter (label.ts lines 152-158): early-return on equal value. -/
def Label.setAlignment (l : Label) (a : Label.Alignment) : Label :=
  if l.alignment = a then l
  else { l with _altered := l._altered.alter LCat.typesetting, alignment := a }

/-- lineAnchor setter (label.ts lines 166-172): early-return on equal value. -/
def Label.setLineAnchor (l : Label) (a : Label.LineAnchor) : Label :=
  if l.lineAnchor = a then l
  else { l with _altered := l._altered.alter LCat.typesetting, lineAnchor := a }

/-- fontFace setter (label.ts lines 188-195): early-return when the argument is the very
same object (identity, modelled via ids); otherwise mark typesetting and resources. -/
def Label.setFontFace (l : Label) (f : FontFaceM) : Label :=
  if l.fontFace.map FontFaceM.id = some f.id then l
  else
    { l with
      _altered := (l._altered.alter LCat.typesetting).alter LCat.resources
      fontFace := some f }

/-- color setter (label.ts lines 203-209): early-return when the stored color equals the
argument by value. -/
def Label.setColor (l : Label) (c : ColorM) : Label :=
  if l.color.equals c then l
  else { l with _altered := l._altered.alter LCat.color, color := c }

/-- backgroundColor setter (label.ts lines 217-223): early-return when the stored
background color equals the argument by value. -/
def Label.setBackgroundColor (l : Label) (c : ColorM) : Label :=
  if l.backgroundColor.equals c then l
  else { l with _altered := l._altered.alter LCat.color, backgroundColor := c }

/-- altered getter (label.ts lines 239-241): OR of the label's own any flag and, when the
text is a shared Text object, that object's own altered flag. -/
def Label.altered (l : Label) : Bool :=
  l._altered.any ||
    (match l.text with
     | Sum.inl t => t.altered
     | Sum.inr _ => false)

/-- reset (label.ts lines 246-248): reset only the label's own ChangeLookup. -/
def Label.reset (l : Label) : Label :=
  { l with _altered := l._altered.reset }

/-- Postcondition of the frameScale setter stated as in the spec: the stored frame size
is round(surfaceSize * clampedScale) floored at 1 per axis, the stored frame scale is
frameSize / surfaceSize recomputed from the rounded size, the mode flag is
scale-authoritative, and re-applying the setter with the read-back scale changes neither
stored size nor stored scale. -/
def c1Post (w : Canvas) (s : ℚ × ℚ) : Prop :=
  let c := (Canvas.setFrameScale w s).state
  c.frameSize.1 = max 1 (jsRound ((w.size.1 : ℚ) * clampQ s.1 0 1)) ∧
  c.frameSize.2 = max 1 (jsRound ((w.size.2 : ℚ) * clampQ s.2 0 1)) ∧
  c.frameScale.1 = (c.frameSize.1 : ℚ) / (w.size.1 : ℚ) ∧
  c.frameScale.2 = (c.frameSize.2 : ℚ) / (w.size.2 : ℚ) ∧
  c.favorSizeOverScale = false ∧
  (Canvas.setFrameScale c c.frameScale).state.frameSize = c.frameSize ∧
  (Canvas.setFrameScale c c.frameScale).state.frameScale = c.frameScale

/-- Postcondition of the frameSize setter stated as in the spec: the stored frame size is
the input clamped to [1, surfaceSize axis] and rounded (hence within those bounds), the
stored frame scale is frameSize / surfaceSize, the mode flag is size-authoritative
exactly when the stored size differs from the full surface size, and when it equals the
surface size a later surface resize takes the scale re-application path. -/
def c2Post (w : Canvas) (sz : ℚ × ℚ) : Prop :=
  let c := (Canvas.setFrameSize w sz).state
  c.frameSize.1 = jsRound (clampQ sz.1 1 (w.size.1 : ℚ)) ∧
  c.frameSize.2 = jsRound (clampQ sz.2 1 (w.size.2 : ℚ)) ∧
  1 ≤ c.frameSize.1 ∧ c.frameSize.1 ≤ w.size.1 ∧
  1 ≤ c.frameSize.2 ∧ c.frameSize.2 ≤ w.size.2 ∧
  c.frameScale.1 = (c.frameSize.1 : ℚ) / (w.size.1 : ℚ) ∧
  c.frameScale.2 = (c.frameSize.2 : ℚ) / (w.size.2 : ℚ) ∧
  (c.favorSizeOverScale = false ↔ c.frameSize = w.size) ∧
  (c.frameSize = w.size → ∀ n : ℤ × ℤ,
    CtrlEvent.applyScale ∈ (Canvas.onResize c n).2 ∧
      CtrlEvent.applySize ∉ (Canvas.onResize c n).2)

/-- Postcondition for the error-handling behavior of setFrameScale/setFrameSize:
no fault is ever signalled; negative components are reported via clamp diagnostics and
execution continues with the clamped value. -/
def c5Post (w : Canvas) (v : ℚ × ℚ) : Prop :=
  (Canvas.setFrameScale w v).faults = [] ∧
  (Canvas.setFrameSize w v).faults = [] ∧
  (v.1 < 0 → LogEvent.scaleClampX ∈ (Canvas.setFrameScale w v).logs) ∧
  (v.2 < 0 → LogEvent.scaleClampY ∈ (Canvas.setFrameScale w v).logs) ∧
  (v.1 < 0 → LogEvent.sizeClampX ∈ (Canvas.setFrameSize w v).logs) ∧
  (v.2 < 0 → LogEvent.sizeClampY ∈ (Canvas.setFrameSize w v).logs) ∧
  (Canvas.setFrameScale w v).state.frameSize.1 =
    jsRound (max 1 ((w.size.1 : ℚ) * clampQ v.1 0 1)) ∧
  (Canvas.setFrameSize w v).state.frameSize.1 =
    jsRound (clampQ v.1 1 (w.size.1 : ℚ))

/-- Postcondition for onResize with a renderer bound: the public resize() path is
onResize, the event trace is exactly block, then one mutation re-applying the previous
target size (size-authoritative mode) or the previous scale (otherwise), then unblock,
and the state mutation matches the corresponding setter run on the blocked,
size-updated canvas. -/
def c8Post (w : Canvas) (n : ℤ × ℤ) : Prop :=
  Canvas.resize w n = Canvas.onResize w n ∧
  (Canvas.onResize w n).2 =
    [CtrlEvent.block,
      if w.favorSizeOverScale then CtrlEvent.applySize else CtrlEvent.applyScale,
      CtrlEvent.unblock] ∧
  (Canvas.onResize w n).1.blocked = false ∧
  (w.favorSizeOverScale = true →
    (Canvas.onResize w n).1.frameSize =
      (Canvas.setFrameSize { w with size := n, blocked := true }
        ((w.frameSize.1 : ℚ), (w.frameSize.2 : ℚ))).state.frameSize ∧
    (Canvas.onResize w n).1.frameScale =
      (Canvas.setFrameSize { w with size := n, blocked := true }
        ((w.frameSize.1 : ℚ), (w.frameSize.2 : ℚ))).state.frameScale) ∧
  (w.favorSizeOverScale = false →
    (Canvas.onResize w n).1.frameSize =
      (Canvas.setFrameScale { w with size := n, blocked := true }
        w.frameScale).state.frameSize ∧
    (Canvas.onResize w n).1.frameScale =
      (Canvas.setFrameScale { w with size := n, blocked := true }
        w.frameScale).state.frameScale)

/-- A plain renderer whose precision negotiation accepts any requested value. -/
def rendDefault : Renderer :=
  { initCount := 0, initialized := false, framePrecision := Precision.auto,
    frameSize := (1, 1), clearColor := (0, 0, 0, 1), debugTexture := 0,
    negotiate := fun p => p }

/-- A concrete 800x600 canvas with no renderer bound, requesting float precision. -/
def canvas800 : Canvas :=
  { size := (800, 600), frameScale := (1, 1), frameSize := (800, 600),
    favorSizeOverScale := false, framePrecision := Precision.float,
    clearColor := (0, 0, 0, 1), blocked := true, controllable := none,
    renderer := none, renderers := fun _ => rendDefault }

/-- The same canvas with renderer 0 bound and the controller running. -/
def canvasBound : Canvas :=
  { canvas800 with renderer := some 0, controllable := some 0, blocked := false }

/-- A renderer that downgrades every requested precision to byte. -/
def rendByte : Renderer := { rendDefault with negotiate := fun _ => Precision.byte }

/-- A canvas requesting float precision whose renderer heap holds only
byte-downgrading renderers. -/
def canvas4 : Canvas := { canvas800 with renderers := fun _ => rendByte }

/-- A concrete label with plain-string text, a clean ChangeLookup and no font face. -/
def labelA : Label :=
  { text := Sum.inr "a", wordWrap := false, alignment := Label.Alignment.left,
    lineAnchor := Label.LineAnchor.baseline, lineWidth := 0, fontFace := none,
    color := ⟨0, 0, 0, 1⟩, backgroundColor := ⟨1, 1, 1, 1⟩,
    _altered := ⟨false, false, false, false, false, false⟩ }

/-- A concrete font face with empty metric tables. -/
def ff0 : FontFaceM := ⟨0, fun _ _ => none, fun _ => none⟩

/-- The concrete label with the concrete font face set. -/
def labelF : Label := { labelA with fontFace := some ff0 }

/-- A concrete shared Text object whose own altered flag is set. -/
def textHi : TextM := ⟨"hi", true⟩

/-- The concrete label referencing the shared Text object. -/
def labelT : Label := { labelA with text := Sum.inl textHi }

theorem jsRound_intCast (n : ℤ) : jsRound ((n : ℚ)) = n := by
  unfold jsRound
  rw [Int.floor_eq_iff]
  constructor
  · norm_num
  · norm_num

theorem jsRound_mono {x y : ℚ} (h : x ≤ y) : jsRound x ≤ jsRound y := by
  unfold jsRound
  exact Int.floor_le_floor (by linarith)

theorem jsRound_le_int {x : ℚ} {n : ℤ} (h : x ≤ (n : ℚ)) : jsRound x ≤ n := by
  have h2 := jsRound_mono h
  rwa [jsRound_intCast] at h2

theorem int_le_jsRound {n : ℤ} {x : ℚ} (h : (n : ℚ) ≤ x) : n ≤ jsRound x := by
  have h2 := jsRound_mono h
  rwa [jsRound_intCast] at h2

theorem jsRound_max_one (x : ℚ) : jsRound (max 1 x) = max 1 (jsRound x) := by
  have h1 : jsRound (1 : ℚ) = 1 := by
    have h := jsRound_intCast 1
    rwa [Int.cast_one] at h
  rcases le_total x 1 with h | h
  · rw [max_eq_left h, h1]
    have h2 : jsRound x ≤ 1 := by
      have h3 := jsRound_mono h
      rwa [h1] at h3
    rw [max_eq_left h2]
  · rw [max_eq_right h]
    have h2 : 1 ≤ jsRound x := int_le_jsRound (by exact_mod_cast h)
    rw [max_eq_right h2]

theorem le_clampQ {x lo hi : ℚ} (h : lo ≤ hi) : lo ≤ clampQ x lo hi :=
  le_min (le_max_right x lo) h

theorem clampQ_le {x lo hi : ℚ} : clampQ x lo hi ≤ hi :=
  min_le_right _ _

theorem clampQ_eq {x lo hi : ℚ} (h1 : lo ≤ x) (h2 : x ≤ hi) : clampQ x lo hi = x := by
  unfold clampQ
  rw [max_eq_left h1, min_eq_left h2]

theorem scaleRound_bounds (S : ℤ) (x : ℚ) (hS : 1 ≤ S) :
    1 ≤ jsRound (max 1 ((S : ℚ) * clampQ x 0 1)) ∧
      jsRound (max 1 ((S : ℚ) * clampQ x 0 1)) ≤ S := by
  constructor
  · exact int_le_jsRound (by push_cast; exact le_max_left _ _)
  · apply jsRound_le_int
    apply max_le
    · exact_mod_cast hS
    · have h0 : (0 : ℚ) ≤ (S : ℚ) := by exact_mod_cast le_trans zero_le_one hS
      calc (S : ℚ) * clampQ x 0 1 ≤ (S : ℚ) * 1 :=
            mul_le_mul_of_nonneg_left clampQ_le h0
        _ = (S : ℚ) := mul_one _

theorem scaleRound_fixed (S sz : ℤ) (hS : 1 ≤ S) (h1 : 1 ≤ sz) (h2 : sz ≤ S) :
    clampQ ((sz : ℚ) / (S : ℚ)) 0 1 = (sz : ℚ) / (S : ℚ) ∧
      jsRound (max 1 ((S : ℚ) * ((sz : ℚ) / (S : ℚ)))) = sz := by
  have hSpos : (0 : ℚ) < (S : ℚ) := by exact_mod_cast lt_of_lt_of_le zero_lt_one hS
  have hq1 : (0 : ℚ) ≤ (sz : ℚ) / (S : ℚ) :=
    div_nonneg (by exact_mod_cast le_trans zero_le_one h1) (le_of_lt hSpos)
  have hq2 : (sz : ℚ) / (S : ℚ) ≤ 1 := (div_le_one hSpos).mpr (by exact_mod_cast h2)
  have hmul : (S : ℚ) * ((sz : ℚ) / (S : ℚ)) = (sz : ℚ) := by
    field_simp
  refine ⟨clampQ_eq hq1 hq2, ?_⟩
  rw [hmul, max_eq_right (by exact_mod_cast h1), jsRound_intCast]

theorem setScale_component (S : ℤ) (x : ℚ) (hS : 1 ≤ S) :
    jsRound (max 1 ((S : ℚ) * clampQ x 0 1)) =
        max 1 (jsRound ((S : ℚ) * clampQ x 0 1)) ∧
      clampQ ((jsRound (max 1 ((S : ℚ) * clampQ x 0 1)) : ℚ) / (S : ℚ)) 0 1 =
        (jsRound (max 1 ((S : ℚ) * clampQ x 0 1)) : ℚ) / (S : ℚ) ∧
      jsRound (max 1 ((S : ℚ) *
          clampQ ((jsRound (max 1 ((S : ℚ) * clampQ x 0 1)) : ℚ) / (S : ℚ)) 0 1)) =
        jsRound (max 1 ((S : ℚ) * clampQ x 0 1)) := by
  obtain ⟨b1, b2⟩ := scaleRound_bounds S x hS
  obtain ⟨f1, f2⟩ := scaleRound_fixed S (jsRound (max 1 ((S : ℚ) * clampQ x 0 1))) hS b1 b2
  refine ⟨jsRound_max_one _, f1, ?_⟩
  rw [f1]
  exact f2

theorem sizeRound_bounds (S : ℤ) (x : ℚ) (hS : 1 ≤ S) :
    1 ≤ jsRound (clampQ x 1 (S : ℚ)) ∧ jsRound (clampQ x 1 (S : ℚ)) ≤ S := by
  have hle : (1 : ℚ) ≤ (S : ℚ) := by exact_mod_cast hS
  constructor
  · exact int_le_jsRound (by push_cast; exact le_clampQ hle)
  · exact jsRound_le_int clampQ_le

theorem decideNe_false_iff (a b : ℤ × ℤ) : (decide (a ≠ b) = false) ↔ a = b := by
  simp

theorem onResize_trace (w : Canvas) (n : ℤ × ℤ) :
    (Canvas.onResize w n).2 =
      (if w.renderer.isSome then [CtrlEvent.block] else []) ++
        [if w.favorSizeOverScale then CtrlEvent.applySize else CtrlEvent.applyScale] ++
        (if w.renderer.isSome then [CtrlEvent.unblock] else []) := by
  rcases hr : w.renderer with _ | rid <;> rcases hf : w.favorSizeOverScale <;>
    simp [Canvas.onResize, hr, hf]

theorem unbind_renderers (w : Canvas) : (Canvas.unbind w).renderers = w.renderers := by
  rcases hr : w.renderer with _ | rid <;> simp [Canvas.unbind, hr]

theorem unbind_framePrecision (w : Canvas) :
    (Canvas.unbind w).framePrecision = w.framePrecision := by
  rcases hr : w.renderer with _ | rid <;> simp [Canvas.unbind, hr]

theorem bind_self (u : Canvas) (r : Option ℕ) (h : u.renderer = r) :
    Canvas.bind u r = u := by
  unfold Canvas.bind
  rw [if_pos h]

theorem bind_framePrecision (v : Canvas) (r : Option ℕ) :
    (Canvas.bind v r).framePrecision = v.framePrecision := by
  by_cases h : v.renderer = r
  · rw [bind_self v r h]
  · rcases r with _ | rid <;>
      simp [Canvas.bind, h, unbind_framePrecision]

/-- Claim C1: for every canvas with surface size at least (1,1) and any input scale, the
frameScale setter clamps each component to [0,1], stores the frame size
round(surfaceSize * clampedScale) floored at 1 per axis, stores the frame scale
frameSize / surfaceSize recomputed from the rounded integer size, clears
favorSizeOverScale, and re-applying the setter with the read-back scale changes neither
the stored size nor the stored scale. -/
theorem claim_C1 (w : Canvas) (s : ℚ × ℚ) (h1 : 1 ≤ w.size.1) (h2 : 1 ≤ w.size.2) :
    c1Post w s := by
  obtain ⟨e1a, e1b, e1c⟩ := setScale_component w.size.1 s.1 h1
  obtain ⟨e2a, e2b, e2c⟩ := setScale_component w.size.2 s.2 h2
  exact ⟨e1a, e2a, rfl, rfl, rfl, Prod.ext e1c e2c,
    Prod.ext (congrArg (fun z : ℤ => (z : ℚ) / (w.size.1 : ℚ)) e1c)
      (congrArg (fun z : ℤ => (z : ℚ) / (w.size.2 : ℚ)) e2c)⟩

/-- Claim C1 witness: the round-trip property instantiated on the 800x600 canvas with
scale (1/2, 1/2). -/
theorem claim_C1_witness :
    (1 ≤ canvas800.size.1) ∧ (1 ≤ canvas800.size.2) ∧ c1Post canvas800 (1/2, 1/2) :=
  ⟨by decide, by decide, claim_C1 canvas800 (1/2, 1/2) (by decide) (by decide)⟩

/-- Claim C2: for every canvas with surface size at least (1,1) and any input size, the
frameSize setter clamps each axis to [1, surfaceSize axis] and rounds, stores frame
scale frameSize / surfaceSize, sets favorSizeOverScale exactly when the resulting size
differs from the full surface size, and when they are equal a later surface resize takes
the scale re-application path (snap-back). -/
theorem claim_C2 (w : Canvas) (sz : ℚ × ℚ) (h1 : 1 ≤ w.size.1) (h2 : 1 ≤ w.size.2) :
    c2Post w sz := by
  have hb1 := sizeRound_bounds w.size.1 sz.1 h1
  have hb2 := sizeRound_bounds w.size.2 sz.2 h2
  refine ⟨rfl, rfl, hb1.1, hb1.2, hb2.1, hb2.2, rfl, rfl, decideNe_false_iff _ _, ?_⟩
  intro hEq n
  have hfav : (Canvas.setFrameSize w sz).state.favorSizeOverScale = false :=
    (decideNe_false_iff _ _).mpr hEq
  rw [onResize_trace, hfav]
  cases hbo : (Canvas.setFrameSize w sz).state.renderer.isSome <;> simp

/-- Claim C2 witness: the frameSize setter contract instantiated on the 800x600 canvas
with requested size (400, 300). -/
theorem claim_C2_witness :
    (1 ≤ canvas800.size.1) ∧ (1 ≤ canvas800.size.2) ∧ c2Post canvas800 (400, 300) :=
  ⟨by decide, by decide, claim_C2 canvas800 (400, 300) (by decide) (by decide)⟩

/-- Claim C3 counterexample: the text setter has no equality guard. On a label with a
clean ChangeSet, writing the very value currently stored (structurally equal) marks the
text category and the aggregate any flag dirty, contradicting the claim that every Label
property setter early-returns on structurally equal values. -/
theorem claim_C3_counterexample :
    labelA._altered.any = false ∧
    (Label.setText labelA labelA.text)._altered.any = true ∧
    (Label.setText labelA labelA.text)._altered.text = true :=
  ⟨rfl, rfl, rfl⟩

/-- Claim C3 (amended): the wordWrap, alignment, lineAnchor, fontFace, color and
backgroundColor setters early-return without touching the ChangeSet when the new value
equals the stored one (value equality for colors, identity for font faces); in
particular a clean ChangeSet stays clean on an equal color write. The text setter is the
exception: it always marks the text category dirty. -/
theorem claim_C3_amended (l : Label) (f : FontFaceM) (c bc : ColorM) :
    Label.setWordWrap l l.wordWrap = l ∧
    Label.setAlignment l l.alignment = l ∧
    Label.setLineAnchor l l.lineAnchor = l ∧
    (l.fontFace = some f → Label.setFontFace l f = l) ∧
    (l.color.equals c = true → Label.setColor l c = l) ∧
    (l.backgroundColor.equals bc = true → Label.setBackgroundColor l bc = l) ∧
    (l._altered.any = false → (Label.setColor l l.color)._altered.any = false) ∧
    (Label.setText l l.text)._altered.text = true := by
  refine ⟨by simp [Label.setWordWrap], by simp [Label.setAlignment],
    by simp [Label.setLineAnchor], ?_, ?_, ?_, ?_, rfl⟩
  · intro h
    simp [Label.setFontFace, h]
  · intro h
    simp [Label.setColor, h]
  · intro h
    simp [Label.setBackgroundColor, h]
  · intro h
    have he : l.color.equals l.color = true := by simp [ColorM.equals]
    simp [Label.setColor, he, h]

/-- Claim C3 witness: on the concrete label, an equal fontFace write and an equal color
write are no-ops and the clean ChangeSet stays clean. -/
theorem claim_C3_witness :
    labelF.fontFace = some ff0 ∧
    Label.setFontFace labelF ff0 = labelF ∧
    labelF.color.equals labelF.color = true ∧
    Label.setColor labelF labelF.color = labelF ∧
    labelF._altered.any = false ∧
    (Label.setColor labelF labelF.color)._altered.any = false := by
  obtain ⟨h1, h2, h3, h4, h5, h6, h7, h8⟩ :=
    claim_C3_amended labelF ff0 labelF.color labelF.backgroundColor
  exact ⟨rfl, h4 rfl, by decide, h5 (by decide), rfl, h7 rfl⟩

/-- Claim C4 counterexample: binding a pipeline that downgrades the requested float
precision to byte leaves the canvas's framePrecision getter at float; bind pushes the
precision but never reads the downgraded value back. -/
theorem claim_C4_counterexample :
    canvas4.framePrecision = Precision.float ∧
    (canvas4.renderers 0).negotiate Precision.float = Precision.byte ∧
    ((Canvas.bind canvas4 (some 0)).renderers 0).framePrecision = Precision.byte ∧
    (Canvas.bind canvas4 (some 0)).framePrecision = Precision.float ∧
    Precision.float ≠ Precision.byte := by
  refine ⟨rfl, rfl, ?_, ?_, by decide⟩ <;> rfl

/-- Claim C4 (amended): the read-back happens in the framePrecision setter, not in bind.
Setting framePrecision with a renderer bound stores the renderer's negotiated value as
the canonical canvas precision (and on the renderer), with no fault; bind never changes
the canvas's framePrecision field. -/
theorem claim_C4_amended (w : Canvas) (rid : ℕ) (p : Precision)
    (hb : w.renderer = some rid) :
    (Canvas.setFramePrecision w p).framePrecision = (w.renderers rid).negotiate p ∧
    ((Canvas.setFramePrecision w p).renderers rid).framePrecision =
      (w.renderers rid).negotiate p ∧
    (∀ v : Canvas, ∀ r : Option ℕ,
      (Canvas.bind v r).framePrecision = v.framePrecision) := by
  refine ⟨?_, ?_, fun v r => bind_framePrecision v r⟩ <;>
    simp [Canvas.setFramePrecision, hb, updateR]

/-- Claim C4 witness: the amended negotiation contract instantiated on the bound canvas
and a bind of renderer 5 onto the unbound canvas. -/
theorem claim_C4_witness :
    canvasBound.renderer = some 0 ∧
    (Canvas.setFramePrecision canvasBound Precision.half).framePrecision =
      (canvasBound.renderers 0).negotiate Precision.half ∧
    (Canvas.bind canvas800 (some 5)).framePrecision = canvas800.framePrecision :=
  ⟨rfl, (claim_C4_amended canvasBound 0 Precision.half rfl).1,
    (claim_C4_amended canvasBound 0 Precision.half rfl).2.2 canvas800 (some 5)⟩

/-- Claim C5 counterexample: a negative component given to the frameScale or frameSize
setter does not signal InvalidArgument; the value is silently clamped (with a
diagnostic) and execution continues, contradicting the claim. -/
theorem claim_C5_counterexample :
    ((-1 : ℚ) / 2 < 0) ∧
    Fault.invalidArgument ∉ (Canvas.setFrameScale canvas800 (-1/2, 1/2)).faults ∧
    (Canvas.setFrameScale canvas800 (-1/2, 1/2)).state.frameScale = (1/800, 1/2) ∧
    ((-5 : ℚ) < 0) ∧
    Fault.invalidArgument ∉ (Canvas.setFrameSize canvas800 (-5, 300)).faults ∧
    (Canvas.setFrameSize canvas800 (-5, 300)).state.frameSize = (1, 300) := by
  refine ⟨by norm_num, by simp [Canvas.setFrameScale], ?_, by norm_num,
    by simp [Canvas.setFrameSize], ?_⟩
  · show ((jsRound (max 1 ((800 : ℚ) * clampQ (-1/2) 0 1)) : ℚ) / 800,
        (jsRound (max 1 ((600 : ℚ) * clampQ (1/2) 0 1)) : ℚ) / 600) = (1/800, 1/2)
    norm_num [jsRound, clampQ]
  · show (jsRound (clampQ (-5) 1 (800 : ℚ)), jsRound (clampQ 300 1 (600 : ℚ))) = (1, 300)
    norm_num [jsRound, clampQ]

/-- Claim C5 (amended): the setters never signal a fault; negative components are
clamped (scale to [0,1], size to [1, surface axis]) with a developer diagnostic logged,
and execution continues with the adjusted value. -/
theorem claim_C5_amended (w : Canvas) (v : ℚ × ℚ) : c5Post w v := by
  refine ⟨rfl, rfl, ?_, ?_, ?_, ?_, rfl, rfl⟩
  · intro h
    simp [Canvas.setFrameScale, h]
  · intro h
    simp [Canvas.setFrameScale, h]
  · intro h
    have h1 : v.1 < 1 := lt_trans h zero_lt_one
    simp [Canvas.setFrameSize, h1]
  · intro h
    have h1 : v.2 < 1 := lt_trans h zero_lt_one
    simp [Canvas.setFrameSize, h1]

/-- Claim C5 witness: on the 800x600 canvas, a negative width component produces clamp
diagnostics from both setters and no fault. -/
theorem claim_C5_witness :
    ((-1 : ℚ) / 2 < 0) ∧
    LogEvent.scaleClampX ∈ (Canvas.setFrameScale canvas800 (-1/2, 1/2)).logs ∧
    LogEvent.sizeClampX ∈ (Canvas.setFrameSize canvas800 (-1/2, 1/2)).logs :=
  ⟨by norm_num, (claim_C5_amended canvas800 (-1/2, 1/2)).2.2.1 (by norm_num),
    (claim_C5_amended canvas800 (-1/2, 1/2)).2.2.2.2.1 (by norm_num)⟩

/-- Claim C6: bind is idempotent with respect to the bound renderer. Binding an already
bound renderer is a no-op; binding a renderer not currently bound initializes it exactly
once, and an immediately repeated bind of the same renderer changes nothing (no
re-initialization, no unbind). -/
theorem claim_C6 (w v : Canvas) (rid : ℕ) (hw : w.renderer ≠ some rid)
    (hv : v.renderer = some rid) :
    Canvas.bind v (some rid) = v ∧
    ((Canvas.bind w (some rid)).renderers rid).initCount =
      (w.renderers rid).initCount + 1 ∧
    ((Canvas.bind w (some rid)).renderers rid).initialized = true ∧
    Canvas.bind (Canvas.bind w (some rid)) (some rid) = Canvas.bind w (some rid) := by
  have hb : (Canvas.bind w (some rid)).renderer = some rid := by
    simp [Canvas.bind, hw]
  refine ⟨bind_self v (some rid) hv, ?_, ?_,
    bind_self (Canvas.bind w (some rid)) (some rid) hb⟩ <;>
    simp [Canvas.bind, hw, updateR, unbind_renderers]

/-- Claim C6 witness: bind idempotence instantiated with renderer 0 on the unbound and
on the bound concrete canvas. -/
theorem claim_C6_witness :
    (canvas800.renderer ≠ some 0) ∧ canvasBound.renderer = some 0 ∧
    Canvas.bind canvasBound (some 0) = canvasBound ∧
    ((Canvas.bind canvas800 (some 0)).renderers 0).initCount =
      (canvas800.renderers 0).initCount + 1 ∧
    Canvas.bind (Canvas.bind canvas800 (some 0)) (some 0) =
      Canvas.bind canvas800 (some 0) :=
  ⟨by decide, rfl, (claim_C6 canvas800 canvasBound 0 (by decide) rfl).1,
    (claim_C6 canvas800 canvasBound 0 (by decide) rfl).2.1,
    (claim_C6 canvas800 canvasBound 0 (by decide) rfl).2.2.2⟩

/-- Claim C7: unbind is a no-op when nothing is bound; otherwise it blocks the
controller, detaches the controllable and the renderer reference, leaves the whole
renderer heap (initialized state and identity) untouched, and returns still blocked. -/
theorem claim_C7 (w v : Canvas) (rid : ℕ) (hw : w.renderer = none)
    (hv : v.renderer = some rid) :
    Canvas.unbind w = w ∧
    (Canvas.unbind v).blocked = true ∧
    (Canvas.unbind v).renderer = none ∧
    (Canvas.unbind v).controllable = none ∧
    (Canvas.unbind v).renderers = v.renderers := by
  refine ⟨?_, ?_, ?_, ?_, ?_⟩ <;> simp [Canvas.unbind, hw, hv]

/-- Claim C7 witness: unbind behavior instantiated on the unbound and the bound concrete
canvas. -/
theorem claim_C7_witness :
    canvas800.renderer = none ∧ canvasBound.renderer = some 0 ∧
    Canvas.unbind canvas800 = canvas800 ∧
    (Canvas.unbind canvasBound).blocked = true ∧
    (Canvas.unbind canvasBound).renderer = none ∧
    (Canvas.unbind canvasBound).renderers = canvasBound.renderers :=
  ⟨rfl, rfl, (claim_C7 canvas800 canvasBound 0 rfl rfl).1,
    (claim_C7 canvas800 canvasBound 0 rfl rfl).2.1,
    (claim_C7 canvas800 canvasBound 0 rfl rfl).2.2.1,
    (claim_C7 canvas800 canvasBound 0 rfl rfl).2.2.2.2⟩

/-- Claim C8 counterexample: with no renderer bound, onResize neither blocks nor
unblocks the controller, refuting the claim that the block/unblock bracket happens in
every state. -/
theorem claim_C8_counterexample :
    canvas800.renderer = none ∧
    CtrlEvent.block ∉ (Canvas.onResize canvas800 (801, 600)).2 ∧
    CtrlEvent.unblock ∉ (Canvas.onResize canvas800 (801, 600)).2 := by
  refine ⟨rfl, ?_, ?_⟩ <;> simp [onResize_trace, canvas800]

/-- Claim C8 (amended): whenever a renderer is bound, every resize (onResize, also
reached via the public resize()) brackets the frame size/scale mutation with block
before and unblock after, ends unblocked, and re-applies the previous target size in
size-authoritative mode, otherwise the previous scale. -/
theorem claim_C8_amended (w : Canvas) (n : ℤ × ℤ) (h : w.renderer.isSome = true) :
    c8Post w n := by
  obtain ⟨rid, hr⟩ := Option.isSome_iff_exists.mp h
  rcases hf : w.favorSizeOverScale <;>
    refine ⟨rfl, ?_, ?_, ?_, ?_⟩ <;>
      simp [Canvas.onResize, hr, hf]

/-- Claim C8 witness: the bracketing contract instantiated on the bound concrete canvas
resizing to 400x300. -/
theorem claim_C8_witness :
    canvasBound.renderer.isSome = true ∧ c8Post canvasBound (400, 300) :=
  ⟨rfl, claim_C8_amended canvasBound (400, 300) rfl⟩

/-- Claim C9: for a label whose text is a shared Text object, the altered getter is the
OR of the label's own any flag and the Text object's own altered flag, and reset leaves
the referenced Text (and hence its alteration flag) untouched while clearing only the
label's own ChangeSet. -/
theorem claim_C9 (l : Label) (t : TextM) (h : l.text = Sum.inl t) :
    Label.altered l = (l._altered.any || t.altered) ∧
    (Label.reset l).text = l.text ∧
    (Label.reset l)._altered.any = false ∧
    Label.altered (Label.reset l) = t.altered := by
  refine ⟨?_, rfl, rfl, ?_⟩
  · simp [Label.altered, h]
  · simp [Label.altered, Label.reset, ChangeLookup.reset, h]

/-- Claim C9 witness: the altered/reset contract instantiated on the concrete label
referencing a Text object whose own altered flag is set. -/
theorem claim_C9_witness :
    labelT.text = Sum.inl textHi ∧
    Label.altered labelT = (labelT._altered.any || textHi.altered) ∧
    Label.altered (Label.reset labelT) = textHi.altered := by
  obtain ⟨h1, h2, h3, h4⟩ := claim_C9 labelT textHi rfl
  exact ⟨rfl, h1, h4⟩

/-- Claim C10: the glyph-metric queries guard their index range and return NaN without
consulting the font face: kerningBefore for index < 1 or index > length, kerningAfter
for index < 0 or index > length - 1, advance for index < 0 or index > length. -/
theorem claim_C10 (l : Label) (i : ℤ) :
    ((i < 1 ∨ (l.length : ℤ) < i) → Label.kerningBefore l i = (false, none)) ∧
    ((i < 0 ∨ (l.length : ℤ) - 1 < i) → Label.kerningAfter l i = (false, none)) ∧
    ((i < 0 ∨ (l.length : ℤ) < i) → Label.advance l i = (false, none)) := by
  refine ⟨?_, ?_, ?_⟩ <;> intro h <;>
    simp [Label.kerningBefore, Label.kerningAfter, Label.advance, h]

/-- Claim C10 witness: all three guards instantiated at index -1 on the concrete
label. -/
theorem claim_C10_witness :
    ((-1 : ℤ) < 1 ∨ (labelA.length : ℤ) < -1) ∧
    Label.kerningBefore labelA (-1) = (false, none) ∧
    ((-1 : ℤ) < 0 ∨ (labelA.length : ℤ) - 1 < -1) ∧
    Label.kerningAfter labelA (-1) = (false, none) ∧
    ((-1 : ℤ) < 0 ∨ (labelA.length : ℤ) < -1) ∧
    Label.advance labelA (-1) = (false, none) := by
  obtain ⟨h1, h2, h3⟩ := claim_C10 labelA (-1)
  exact ⟨Or.inl (by decide), h1 (Or.inl (by decide)), Or.inl (by decide),
    h2 (Or.inl (by decide)), Or.inl (by decide), h3 (Or.inl (by decide))⟩
